import Mathlib

/-!
Verification of the voice streaming client state machine in
`frontend/voice.js` of the Scenery repository.

The embedding models:
* the PCM capture encoder (`scriptProcessor.onaudioprocess`) and the
  playback decoder (`decodePCMAudio`) as exact rational arithmetic;
* the client state machine (recording / processing / speaking flags, the
  TTS chunk buffer, the reconnect timer and the WebSocket) as a step
  function over an explicit state record, driven by UI events, socket
  events and parsed server messages;
* the session identifier getter (`getOrCreateSessionId`) as a pure
  function of the stored value and of the value the generator would
  produce.
-/

namespace Scenery

/-! ### PCM sample conversion -/

/-- JavaScript ToInt16 truncation toward zero (for values already in the
signed 16-bit range), as applied by the assignment into an `Int16Array`. -/
def jsTrunc (x : ℚ) : ℤ :=
  if x < 0 then Int.ceil x else Int.floor x

/-- Clamping step of the capture path: `Math.max(-1, Math.min(1, s))`. -/
def clampSample (x : ℚ) : ℚ :=
  max (-1) (min 1 x)

/-- Capture-path encoder from `scriptProcessor.onaudioprocess`:
`const s = Math.max(-1, Math.min(1, float32[i])); pcm16[i] = s < 0 ? s * 0x8000 : s * 0x7FFF;`. -/
def encodeSample (x : ℚ) : ℤ :=
  if clampSample x < 0 then jsTrunc (clampSample x * 32768)
  else jsTrunc (clampSample x * 32767)

/-- Playback-path decoder from `decodePCMAudio`:
`channelData[i] = int16 / 32768.0`. -/
def decodeSample (n : ℤ) : ℚ :=
  (n : ℚ) / 32768

/-! ### Session identifier -/

/-- `getOrCreateSessionId` from voice.js, as a function of the stored value
(`localStorage.getItem`, `none` when absent) and of the string the generator
would produce on this call (`crypto.randomUUID()` or the `sess-...`
fallback).  Returns the result together with the updated stored value; the
stored value is only written in the generating branch.  An empty stored
string is falsy in JavaScript, so it also triggers generation. -/
def getOrCreateSessionId (store : Option String) (generated : String) :
    String × Option String :=
  match store with
  | some s => if s = "" then (generated, some generated) else (s, some s)
  | none => (generated, some generated)

/-! ### Client state machine -/

/-- Messages the client sends on the socket besides binary PCM frames. -/
inductive ClientMsg where
  | audioEnd
deriving DecidableEq, Repr

/-- Parsed server messages, discriminated on the `type` field exactly as in
`handleWebSocketMessage`.  `ttsEnd` carries a flag telling whether the
asynchronous decode-and-play setup started by `playTTSAudio` succeeds
(`atob`/`decodePCMAudio`/`createBufferSource` may throw; the failure is
caught).  `unknown` stands for any other `type` value. -/
inductive ServerMsg where
  | transcript (text : String)
  | finalText (text : String)
  | response (text : String) (hotels : List String)
  | assistantResponse
  | ttsStart
  | ttsAudio (audio : String)
  | ttsEnd (playbackOk : Bool)
  | ttsError (err : String)
  | audioLegacy
  | errorMsg (message : String)
  | serverDebug (message : String)
  | unknown
deriving DecidableEq, Repr

/-- The module-level mutable state of voice.js that the protocol logic
reads and writes.  `pendingTimers` models the browser timer queue
restricted to the reconnect timers this module creates: each entry is a
timer id paired with its delay in milliseconds; `reconnectTimer` is the
module variable holding the id of the timer it believes is pending.
`wsOpen` models `websocket.readyState === WebSocket.OPEN`;
`captureActive` models ownership of the `mediaStream`/`scriptProcessor`
capture pipeline; `playbackActive` models a started TTS buffer source
whose `onended` has not fired yet. -/
structure ClientState where
  isRecording : Bool
  isProcessing : Bool
  isSpeaking : Bool
  ttsAudioChunks : List String
  reconnectTimer : Option Nat
  pendingTimers : List (Nat × Nat)
  nextTimerId : Nat
  wsOpen : Bool
  captureActive : Bool
  playbackActive : Bool
deriving DecidableEq, Repr

/-- State at script load: all flags false, empty buffer, no timers. -/
def initState : ClientState :=
  { isRecording := false
    isProcessing := false
    isSpeaking := false
    ttsAudioChunks := []
    reconnectTimer := none
    pendingTimers := []
    nextTimerId := 0
    wsOpen := false
    captureActive := false
    playbackActive := false }

/-- `resetSpeakingState` from voice.js: clears the speaking and processing
flags and empties the TTS chunk buffer. -/
def resetSpeakingState (st : ClientState) : ClientState :=
  { st with isSpeaking := false, isProcessing := false, ttsAudioChunks := [] }

/-- `playTTSAudio` from voice.js, as its effect on the modelled state.  An
empty chunk buffer resets the speaking state immediately and plays nothing.
Otherwise the chunks are concatenated, decoded and a buffer source is
started; on success the reset happens only later in `source.onended`, while
a thrown error is caught and resets immediately. -/
def playTTSAudio (st : ClientState) (playbackOk : Bool) : ClientState :=
  if st.ttsAudioChunks = [] then resetSpeakingState st
  else if playbackOk then { st with playbackActive := true }
  else resetSpeakingState st

/-- The `source.onended` callback installed by `playTTSAudio`: fires only
for a started source and calls `resetSpeakingState`. -/
def playbackEnded (st : ClientState) : ClientState :=
  if st.playbackActive then
    { resetSpeakingState st with playbackActive := false }
  else st

/-- `handleWebSocketMessage` from voice.js, restricted to its effect on the
modelled state (transcript rendering and logging omitted).  `tts_audio`
pushes only truthy (non-empty) `data.audio` strings. -/
def handleWebSocketMessage (st : ClientState) (m : ServerMsg) : ClientState :=
  match m with
  | .transcript _ => st
  | .finalText _ => st
  | .response _ _ => st
  | .assistantResponse => { st with isProcessing := false }
  | .ttsStart => { st with ttsAudioChunks := [], isSpeaking := true }
  | .ttsAudio a =>
      if a = "" then st
      else { st with ttsAudioChunks := st.ttsAudioChunks ++ [a] }
  | .ttsEnd ok => playTTSAudio st ok
  | .ttsError _ => resetSpeakingState st
  | .audioLegacy => st
  | .errorMsg _ => { st with isProcessing := false }
  | .serverDebug _ => st
  | .unknown => st

/-- The `websocket.onmessage` handler: `JSON.parse` inside try/catch.
`none` stands for a frame that is not valid JSON: the error is logged and
the handler returns without touching any state. -/
def wsOnMessage (st : ClientState) (raw : Option ServerMsg) : ClientState :=
  match raw with
  | none => st
  | some m => handleWebSocketMessage st m

/-- `startRecording` from voice.js: `captureOk` tells whether
`getUserMedia` resolves.  On success the capture pipeline is built and
`isRecording` is set; on rejection the catch block only reports the error
and no state changes. -/
def startRecording (st : ClientState) (captureOk : Bool) : ClientState :=
  if captureOk then { st with captureActive := true, isRecording := true }
  else st

/-- `stopRecording` from voice.js: clears `isRecording`, sets
`isProcessing`, tears down the capture pipeline, and sends one
`audio_end` control message when the socket is open. -/
def stopRecording (st : ClientState) : ClientState × List ClientMsg :=
  let st1 := { st with isRecording := false, isProcessing := true, captureActive := false }
  if st1.wsOpen then (st1, [ClientMsg.audioEnd]) else (st1, [])

/-- The mic button click handler: a click while `isSpeaking` returns at
once; otherwise it toggles between stopping and starting capture. -/
def micClick (st : ClientState) (captureOk : Bool) : ClientState × List ClientMsg :=
  if st.isSpeaking then (st, [])
  else if st.isRecording then stopRecording st
  else (startRecording st captureOk, [])

/-- The `websocket.onclose` handler: clears any existing reconnect timer,
then schedules exactly one new reconnect with delay 500 ms when
`isProcessing` and 3000 ms otherwise. -/
def wsOnClose (st : ClientState) : ClientState :=
  let cleared :=
    match st.reconnectTimer with
    | some id => st.pendingTimers.filter (fun t => t.1 ≠ id)
    | none => st.pendingTimers
  let delay := if st.isProcessing then 500 else 3000
  { st with wsOpen := false
            pendingTimers := cleared ++ [(st.nextTimerId, delay)]
            reconnectTimer := some st.nextTimerId
            nextTimerId := st.nextTimerId + 1 }

/-- Firing of a scheduled reconnect timer: the browser removes it from the
queue and runs the callback, which nulls `reconnectTimer` and calls
`connectWebSocket` (the new socket starts out not open).  A timer id not in
the queue (already cleared) does nothing. -/
def timerFire (st : ClientState) (id : Nat) : ClientState :=
  if st.pendingTimers.any (fun t => t.1 = id) then
    { st with pendingTimers := st.pendingTimers.filter (fun t => t.1 ≠ id)
              reconnectTimer := none }
  else st

/-- External events driving the client. -/
inductive Event where
  | micClickEv (captureOk : Bool)
  | wsMessageEv (raw : Option ServerMsg)
  | wsCloseEv
  | wsOpenEv
  | timerFireEv (id : Nat)
  | playbackEndedEv
deriving DecidableEq, Repr

/-- One step of the event loop, returning the new state and the control
messages sent during the step. -/
def step (st : ClientState) (e : Event) : ClientState × List ClientMsg :=
  match e with
  | .micClickEv ok => micClick st ok
  | .wsMessageEv raw => (wsOnMessage st raw, [])
  | .wsCloseEv => (wsOnClose st, [])
  | .wsOpenEv => ({ st with wsOpen := true }, [])
  | .timerFireEv id => (timerFire st id, [])
  | .playbackEndedEv => (playbackEnded st, [])

/-- Run a sequence of events from a state. -/
def run (st : ClientState) (evs : List Event) : ClientState :=
  evs.foldl (fun s e => (step s e).1) st

/-! ### Reconnect timer invariant (helper development) -/

/-- The module variable `reconnectTimer` and the browser timer queue stay
in lockstep: either no reconnect timer is pending and the variable is
null, or exactly one is pending and the variable holds its id. -/
def timerInv (st : ClientState) : Prop :=
  (st.reconnectTimer = none ∧ st.pendingTimers = []) ∨
  (∃ id d, st.reconnectTimer = some id ∧ st.pendingTimers = [(id, d)])

theorem timerInv_initState : timerInv initState :=
  Or.inl ⟨rfl, rfl⟩

theorem timerInv_congr (st stNew : ClientState)
    (h1 : stNew.reconnectTimer = st.reconnectTimer)
    (h2 : stNew.pendingTimers = st.pendingTimers)
    (h : timerInv st) : timerInv stNew := by
  unfold timerInv at *
  rw [h1, h2]
  exact h

theorem resetSpeakingState_timers (st : ClientState) :
    (resetSpeakingState st).reconnectTimer = st.reconnectTimer ∧
    (resetSpeakingState st).pendingTimers = st.pendingTimers := by
  simp [resetSpeakingState]

theorem handleWebSocketMessage_timers (st : ClientState) (m : ServerMsg) :
    (handleWebSocketMessage st m).reconnectTimer = st.reconnectTimer ∧
    (handleWebSocketMessage st m).pendingTimers = st.pendingTimers := by
  cases m <;>
    simp [handleWebSocketMessage, playTTSAudio, resetSpeakingState] <;>
    split_ifs <;> simp

theorem micClick_timers (st : ClientState) (ok : Bool) :
    (micClick st ok).1.reconnectTimer = st.reconnectTimer ∧
    (micClick st ok).1.pendingTimers = st.pendingTimers := by
  simp only [micClick, stopRecording, startRecording]
  split_ifs <;> simp

theorem wsOnClose_reconnectTimer (st : ClientState) :
    (wsOnClose st).reconnectTimer = some st.nextTimerId := by
  simp [wsOnClose]

theorem wsOnClose_pendingTimers_ofNone (st : ClientState)
    (h1 : st.reconnectTimer = none) (h2 : st.pendingTimers = []) :
    (wsOnClose st).pendingTimers =
      [(st.nextTimerId, if st.isProcessing then 500 else 3000)] := by
  simp [wsOnClose, h1, h2]

theorem wsOnClose_pendingTimers_ofSome (st : ClientState) (id : Nat) (d : Nat)
    (h1 : st.reconnectTimer = some id) (h2 : st.pendingTimers = [(id, d)]) :
    (wsOnClose st).pendingTimers =
      [(st.nextTimerId, if st.isProcessing then 500 else 3000)] := by
  simp [wsOnClose, h1, h2]

theorem timerInv_wsOnClose (st : ClientState) (h : timerInv st) :
    timerInv (wsOnClose st) := by
  unfold timerInv at *
  rcases h with ⟨h1, h2⟩ | ⟨id, d, h1, h2⟩
  · exact Or.inr ⟨st.nextTimerId, if st.isProcessing then 500 else 3000,
      wsOnClose_reconnectTimer st, wsOnClose_pendingTimers_ofNone st h1 h2⟩
  · exact Or.inr ⟨st.nextTimerId, if st.isProcessing then 500 else 3000,
      wsOnClose_reconnectTimer st, wsOnClose_pendingTimers_ofSome st id d h1 h2⟩

theorem timerInv_timerFire (st : ClientState) (id : Nat) (h : timerInv st) :
    timerInv (timerFire st id) := by
  unfold timerInv at h ⊢
  rcases h with ⟨h1, h2⟩ | ⟨i, d, h1, h2⟩
  · have he : timerFire st id = st := by
      unfold timerFire
      rw [h2]
      simp
    rw [he]
    exact Or.inl ⟨h1, h2⟩
  · by_cases hid : i = id
    · subst hid
      have he : (timerFire st i).reconnectTimer = none ∧
          (timerFire st i).pendingTimers = [] := by
        unfold timerFire
        rw [h2]
        simp
      exact Or.inl he
    · have he : timerFire st id = st := by
        unfold timerFire
        rw [h2]
        simp [hid]
      rw [he]
      exact Or.inr ⟨i, d, h1, h2⟩

theorem timerInv_step (st : ClientState) (e : Event) (h : timerInv st) :
    timerInv (step st e).1 := by
  cases e with
  | micClickEv ok =>
      exact timerInv_congr st _ (micClick_timers st ok).1 (micClick_timers st ok).2 h
  | wsMessageEv raw =>
      cases raw with
      | none => exact h
      | some m =>
          exact timerInv_congr st _ (handleWebSocketMessage_timers st m).1
            (handleWebSocketMessage_timers st m).2 h
  | wsCloseEv => exact timerInv_wsOnClose st h
  | wsOpenEv => exact timerInv_congr st _ rfl rfl h
  | timerFireEv id => exact timerInv_timerFire st id h
  | playbackEndedEv =>
      refine timerInv_congr st _ ?_ ?_ h <;>
        · simp only [step]
          unfold playbackEnded resetSpeakingState
          split_ifs <;> simp

theorem timerInv_run (evs : List Event) (st : ClientState) (h : timerInv st) :
    timerInv (run st evs) := by
  induction evs generalizing st with
  | nil => exact h
  | cons e evs ih =>
      have hstep := timerInv_step st e h
      exact ih _ hstep

/-! ### Claim theorems -/

/-- Claim C3: for every sequence of events (in particular every sequence of
connection close events), at most one reconnect timer is pending at any
instant, because the close handler cancels any existing pending timer
before scheduling a new one. -/
theorem reconnect_timer_singularity (evs : List Event) :
    (run initState evs).pendingTimers.length ≤ 1 := by
  have h := timerInv_run evs initState timerInv_initState
  unfold timerInv at h
  rcases h with ⟨_, h2⟩ | ⟨i, d, _, h2⟩ <;> simp [h2]

/-- Claim C4: a close while a request/response cycle is in flight
(`isProcessing` true) schedules the reconnect with the short 500 ms delay;
a close while idle schedules it with the long 3000 ms delay. -/
theorem reconnect_delay_policy (st : ClientState) :
    (st.isProcessing = true →
      (wsOnClose st).pendingTimers.getLast? = some (st.nextTimerId, 500)) ∧
    (st.isProcessing = false →
      (wsOnClose st).pendingTimers.getLast? = some (st.nextTimerId, 3000)) := by
  constructor <;> intro h <;> simp [wsOnClose, h]

theorem reconnect_delay_policy_witness :
    (wsOnClose { initState with isProcessing := true }).pendingTimers.getLast? =
      some (0, 500) ∧
    (wsOnClose initState).pendingTimers.getLast? = some (0, 3000) :=
  ⟨(reconnect_delay_policy { initState with isProcessing := true }).1 rfl,
   (reconnect_delay_policy initState).2 rfl⟩

/-- Claim C6: with a truthy value stored, the getter returns it and leaves
the store unchanged, so two successive calls agree; after the store is
cleared, the next call returns and stores the freshly generated value,
which differs from the previous result whenever the generator does not
repeat it. -/
theorem session_id_persistence (store : Option String) (g1 g2 g3 : String)
    (hg1 : g1 ≠ "")
    (hfresh : g3 ≠ (getOrCreateSessionId store g1).1) :
    (getOrCreateSessionId (getOrCreateSessionId store g1).2 g2).1 =
      (getOrCreateSessionId store g1).1 ∧
    (getOrCreateSessionId none g3).1 = g3 ∧
    (getOrCreateSessionId none g3).2 = some g3 ∧
    (getOrCreateSessionId none g3).1 ≠ (getOrCreateSessionId store g1).1 := by
  refine ⟨?_, rfl, rfl, hfresh⟩
  cases store with
  | none => simp [getOrCreateSessionId, hg1]
  | some s =>
      by_cases hs : s = ""
      · simp [getOrCreateSessionId, hs, hg1]
      · simp [getOrCreateSessionId, hs]

theorem session_id_persistence_witness :
    (getOrCreateSessionId (getOrCreateSessionId none "a").2 "b").1 =
      (getOrCreateSessionId none "a").1 ∧
    (getOrCreateSessionId none "c").1 = "c" ∧
    (getOrCreateSessionId none "c").2 = some "c" ∧
    (getOrCreateSessionId none "c").1 ≠ (getOrCreateSessionId none "a").1 :=
  session_id_persistence none "a" "b" "c" (by decide) (by decide)

/-- Claim C7: a frame that fails JSON parsing is dropped by the message
handler and changes no piece of the client state: recording flags, TTS
buffer, processing flag and the reconnect timer are all untouched. -/
theorem malformed_message_no_state_change (st : ClientState) :
    wsOnMessage st none = st ∧
    (wsOnMessage st none).isRecording = st.isRecording ∧
    (wsOnMessage st none).isSpeaking = st.isSpeaking ∧
    (wsOnMessage st none).isProcessing = st.isProcessing ∧
    (wsOnMessage st none).ttsAudioChunks = st.ttsAudioChunks ∧
    (wsOnMessage st none).reconnectTimer = st.reconnectTimer ∧
    (wsOnMessage st none).pendingTimers = st.pendingTimers :=
  ⟨rfl, rfl, rfl, rfl, rfl, rfl, rfl⟩

/-- Claim C8: with the socket open, stopping capture releases the capture
pipeline, sends exactly one `audio_end` control message, and moves the
state from recording to processing. -/
theorem stopRecording_sends_single_audio_end (st : ClientState)
    (_hrec : st.isRecording = true) (hopen : st.wsOpen = true) :
    (stopRecording st).2 = [ClientMsg.audioEnd] ∧
    (stopRecording st).1.isRecording = false ∧
    (stopRecording st).1.isProcessing = true ∧
    (stopRecording st).1.captureActive = false := by
  simp only [stopRecording]
  simp [hopen]

theorem stopRecording_sends_single_audio_end_witness :
    (stopRecording { initState with
        isRecording := true, wsOpen := true, captureActive := true }).2 =
      [ClientMsg.audioEnd] ∧
    (stopRecording { initState with
        isRecording := true, wsOpen := true, captureActive := true }).1.isRecording =
      false ∧
    (stopRecording { initState with
        isRecording := true, wsOpen := true, captureActive := true }).1.isProcessing =
      true ∧
    (stopRecording { initState with
        isRecording := true, wsOpen := true, captureActive := true }).1.captureActive =
      false :=
  stopRecording_sends_single_audio_end _ rfl rfl

/-- Claim C5 as stated is false on the code: the capture path scales
nonnegative samples by 0x7FFF while the playback path divides by 32768, so
the roundtrip error can exceed one least-significant bit; at
s = 65533/65534 the error is about one and a half LSB. -/
theorem pcm_roundtrip_error_exceeds_one_lsb :
    1/32768 < |(65533/65534 : ℚ) -
      decodeSample (encodeSample (65533/65534))| := by
  have h : encodeSample (65533/65534) = 32766 := by
    norm_num [encodeSample, clampSample, jsTrunc]
  rw [h]
  rw [decodeSample]
  rw [show |(65533/65534 : ℚ) - (32766 : ℤ) / 32768| = 24575 / 536854528 by
    rw [abs_of_pos] <;> norm_num]
  norm_num

/-- Claim C5 (amended): for every sample in [-1, 1] the encode/decode
roundtrip is within two LSB (2/32768) of the original, and within one LSB
for negative samples; the one-LSB bound fails only for nonnegative samples
because of the 0x7FFF encode scale against the 32768 decode divisor. -/
theorem pcm_roundtrip_error_within_two_lsb (s : ℚ)
    (h1 : -1 ≤ s) (h2 : s ≤ 1) :
    |s - decodeSample (encodeSample s)| ≤ 2/32768 ∧
    (s < 0 → |s - decodeSample (encodeSample s)| ≤ 1/32768) := by
  have hclamp : clampSample s = s := by
    unfold clampSample
    rw [min_eq_right h2, max_eq_right h1]
  by_cases hneg : s < 0
  · have hm : s * 32768 < 0 := mul_neg_of_neg_of_pos hneg (by norm_num)
    have henc : encodeSample s = Int.ceil (s * 32768) := by
      unfold encodeSample
      rw [hclamp, if_pos hneg]
      unfold jsTrunc
      rw [if_pos hm]
    have hle : (s * 32768 : ℚ) ≤ (Int.ceil (s * 32768) : ℚ) := Int.le_ceil _
    have hlt : ((Int.ceil (s * 32768) : ℤ) : ℚ) < s * 32768 + 1 :=
      Int.ceil_lt_add_one _
    have habs : |s - decodeSample (encodeSample s)| ≤ 1/32768 := by
      rw [henc]
      unfold decodeSample
      rw [abs_le]
      constructor <;> linarith
    exact ⟨le_trans habs (by norm_num), fun _ => habs⟩
  · have hs0 : (0 : ℚ) ≤ s := not_lt.mp hneg
    have hm : ¬ s * 32767 < 0 := not_lt.mpr (mul_nonneg hs0 (by norm_num))
    have henc : encodeSample s = Int.floor (s * 32767) := by
      unfold encodeSample
      rw [hclamp, if_neg hneg]
      unfold jsTrunc
      rw [if_neg hm]
    have hfl : ((Int.floor (s * 32767) : ℤ) : ℚ) ≤ s * 32767 := Int.floor_le _
    have hfg : s * 32767 - 1 < ((Int.floor (s * 32767) : ℤ) : ℚ) :=
      Int.sub_one_lt_floor _
    have habs : |s - decodeSample (encodeSample s)| ≤ 2/32768 := by
      rw [henc]
      unfold decodeSample
      rw [abs_le]
      constructor <;> linarith
    exact ⟨habs, fun hlt0 => absurd hlt0 hneg⟩

theorem pcm_roundtrip_error_within_two_lsb_witness :
    |(1/2 : ℚ) - decodeSample (encodeSample (1/2))| ≤ 2/32768 ∧
    ((1/2 : ℚ) < 0 → |(1/2 : ℚ) - decodeSample (encodeSample (1/2))| ≤ 1/32768) :=
  pcm_roundtrip_error_within_two_lsb (1/2) (by norm_num) (by norm_num)

/-- Claim C9: for every input sample, finite but possibly outside [-1, 1],
the clamp applied before conversion keeps the encoded value inside the
signed 16-bit range, so no wraparound can occur. -/
theorem encodeSample_within_int16_range (x : ℚ) :
    -32768 ≤ encodeSample x ∧ encodeSample x ≤ 32767 := by
  have h1 : -1 ≤ clampSample x := le_max_left _ _
  have h2 : clampSample x ≤ 1 := max_le (by norm_num) (min_le_left _ _)
  unfold encodeSample jsTrunc
  split_ifs with ha hb hc
  · constructor
    · have hlo : (-32768 : ℚ) ≤ clampSample x * 32768 := by linarith
      exact_mod_cast le_trans hlo (Int.le_ceil _)
    · have hhi : clampSample x * 32768 ≤ ((32767 : ℤ) : ℚ) := by
        push_cast
        linarith
      exact Int.ceil_le.mpr hhi
  · exact absurd (mul_neg_of_neg_of_pos ha (by norm_num)) hb
  · have h0 : (0 : ℚ) ≤ clampSample x * 32767 :=
      mul_nonneg (not_lt.mp ha) (by norm_num)
    exact absurd hc (not_lt.mpr h0)
  · constructor
    · have h0 : (0 : ℚ) ≤ clampSample x * 32767 :=
        mul_nonneg (not_lt.mp ha) (by norm_num)
      have := Int.floor_nonneg.mpr h0
      linarith
    · have hhi : clampSample x * 32767 ≤ ((32767 : ℤ) : ℚ) := by
        push_cast
        linarith
      exact_mod_cast le_trans (Int.floor_le _) hhi

/-- Claim C1 as stated is false on the code: from the initial state,
starting capture (mic click with successful device acquisition) and then
receiving a `tts_start` message reaches a state that is recording and
speaking at the same time, because the `tts_start` handler sets
`isSpeaking` without checking `isRecording`. -/
theorem recording_and_speaking_simultaneously_reachable :
    (run initState [Event.micClickEv true,
        Event.wsMessageEv (some ServerMsg.ttsStart)]).isRecording = true ∧
    (run initState [Event.micClickEv true,
        Event.wsMessageEv (some ServerMsg.ttsStart)]).isSpeaking = true := by
  decide

/-- Claim C1 (amended): clicking the mic while the assistant is speaking
is a no-op that leaves the state unchanged, acquires no capture handle and
sends nothing; and every event other than a `tts_start` arriving while
recording preserves mutual exclusion of the recording and speaking flags. -/
theorem start_capture_rejected_while_speaking_and_mutex_step :
    (∀ (st : ClientState) (ok : Bool), st.isSpeaking = true →
      micClick st ok = (st, [])) ∧
    (∀ (st : ClientState) (e : Event),
      ¬(st.isRecording = true ∧ st.isSpeaking = true) →
      (e = Event.wsMessageEv (some ServerMsg.ttsStart) → st.isRecording = false) →
      ¬((step st e).1.isRecording = true ∧ (step st e).1.isSpeaking = true)) := by
  constructor
  · intro st ok h
    simp [micClick, h]
  · intro st e hm hg
    cases e with
    | micClickEv ok =>
        simp only [step, micClick, stopRecording, startRecording]
        split_ifs <;> simp_all
    | wsMessageEv raw =>
        cases raw with
        | none => exact hm
        | some m =>
            cases m <;>
              · simp only [step, wsOnMessage, handleWebSocketMessage, playTTSAudio,
                  resetSpeakingState]
                try split_ifs
                all_goals simp_all
    | wsCloseEv => simpa [step, wsOnClose] using hm
    | wsOpenEv => simpa [step] using hm
    | timerFireEv id =>
        simp only [step, timerFire]
        split_ifs <;> simp_all
    | playbackEndedEv =>
        simp only [step, playbackEnded, resetSpeakingState]
        split_ifs <;> simp_all

theorem start_capture_rejected_while_speaking_and_mutex_step_witness :
    micClick { initState with isSpeaking := true } true =
      ({ initState with isSpeaking := true }, []) ∧
    ¬((step initState
          (Event.wsMessageEv (some ServerMsg.ttsStart))).1.isRecording = true ∧
      (step initState
          (Event.wsMessageEv (some ServerMsg.ttsStart))).1.isSpeaking = true) :=
  ⟨start_capture_rejected_while_speaking_and_mutex_step.1 _ true rfl,
   start_capture_rejected_while_speaking_and_mutex_step.2 initState _
     (by decide) (fun _ => rfl)⟩

/-- Claim C2 as stated is false on the code: handling `tts_end` when
chunks are buffered starts playback and returns with the buffer still
non-empty and the speaking flag still set; they are only cleared later by
the playback-ended callback. -/
theorem tts_end_with_pending_chunks_not_immediately_idle :
    ¬((run initState [Event.wsMessageEv (some ServerMsg.ttsStart),
          Event.wsMessageEv (some (ServerMsg.ttsAudio "a")),
          Event.wsMessageEv (some (ServerMsg.ttsEnd true))]).ttsAudioChunks = [] ∧
      (run initState [Event.wsMessageEv (some ServerMsg.ttsStart),
          Event.wsMessageEv (some (ServerMsg.ttsAudio "a")),
          Event.wsMessageEv (some (ServerMsg.ttsEnd true))]).isSpeaking = false ∧
      (run initState [Event.wsMessageEv (some ServerMsg.ttsStart),
          Event.wsMessageEv (some (ServerMsg.ttsAudio "a")),
          Event.wsMessageEv (some (ServerMsg.ttsEnd true))]).isProcessing = false) := by
  decide

/-- Claim C2 (amended): after any `tts_error` the TTS buffer is empty and
the state idle; after `tts_end` the same holds immediately when the buffer
is empty or when playback setup fails, and otherwise playback starts and
the buffer is emptied and the state reset to idle once playback ends. -/
theorem tts_buffer_reset_after_error_or_playback :
    (∀ (st : ClientState) (err : String),
      (handleWebSocketMessage st (ServerMsg.ttsError err)).ttsAudioChunks = [] ∧
      (handleWebSocketMessage st (ServerMsg.ttsError err)).isSpeaking = false ∧
      (handleWebSocketMessage st (ServerMsg.ttsError err)).isProcessing = false) ∧
    (∀ (st : ClientState) (ok : Bool), st.ttsAudioChunks = [] →
      (handleWebSocketMessage st (ServerMsg.ttsEnd ok)).ttsAudioChunks = [] ∧
      (handleWebSocketMessage st (ServerMsg.ttsEnd ok)).isSpeaking = false ∧
      (handleWebSocketMessage st (ServerMsg.ttsEnd ok)).isProcessing = false) ∧
    (∀ st : ClientState, st.ttsAudioChunks ≠ [] →
      ((handleWebSocketMessage st (ServerMsg.ttsEnd false)).ttsAudioChunks = [] ∧
       (handleWebSocketMessage st (ServerMsg.ttsEnd false)).isSpeaking = false ∧
       (handleWebSocketMessage st (ServerMsg.ttsEnd false)).isProcessing = false) ∧
      (handleWebSocketMessage st (ServerMsg.ttsEnd true)).playbackActive = true ∧
      ((playbackEnded
          (handleWebSocketMessage st (ServerMsg.ttsEnd true))).ttsAudioChunks = [] ∧
       (playbackEnded
          (handleWebSocketMessage st (ServerMsg.ttsEnd true))).isSpeaking = false ∧
       (playbackEnded
          (handleWebSocketMessage st (ServerMsg.ttsEnd true))).isProcessing = false)) := by
  refine ⟨?_, ?_, ?_⟩
  · intro st err
    simp [handleWebSocketMessage, resetSpeakingState]
  · intro st ok h
    simp [handleWebSocketMessage, playTTSAudio, resetSpeakingState, h]
  · intro st h
    simp [handleWebSocketMessage, playTTSAudio, playbackEnded, resetSpeakingState, h]

theorem tts_buffer_reset_after_error_or_playback_witness :
    ((handleWebSocketMessage initState (ServerMsg.ttsEnd true)).ttsAudioChunks = [] ∧
     (handleWebSocketMessage initState (ServerMsg.ttsEnd true)).isSpeaking = false ∧
     (handleWebSocketMessage initState (ServerMsg.ttsEnd true)).isProcessing = false) ∧
    (((handleWebSocketMessage
          { initState with ttsAudioChunks := ["a"], isSpeaking := true }
          (ServerMsg.ttsEnd false)).ttsAudioChunks = [] ∧
      (handleWebSocketMessage
          { initState with ttsAudioChunks := ["a"], isSpeaking := true }
          (ServerMsg.ttsEnd false)).isSpeaking = false ∧
      (handleWebSocketMessage
          { initState with ttsAudioChunks := ["a"], isSpeaking := true }
          (ServerMsg.ttsEnd false)).isProcessing = false) ∧
     (handleWebSocketMessage
         { initState with ttsAudioChunks := ["a"], isSpeaking := true }
         (ServerMsg.ttsEnd true)).playbackActive = true ∧
     ((playbackEnded (handleWebSocketMessage
          { initState with ttsAudioChunks := ["a"], isSpeaking := true }
          (ServerMsg.ttsEnd true))).ttsAudioChunks = [] ∧
      (playbackEnded (handleWebSocketMessage
          { initState with ttsAudioChunks := ["a"], isSpeaking := true }
          (ServerMsg.ttsEnd true))).isSpeaking = false ∧
      (playbackEnded (handleWebSocketMessage
          { initState with ttsAudioChunks := ["a"], isSpeaking := true }
          (ServerMsg.ttsEnd true))).isProcessing = false)) :=
  ⟨tts_buffer_reset_after_error_or_playback.2.1 initState true rfl,
   tts_buffer_reset_after_error_or_playback.2.2
     { initState with ttsAudioChunks := ["a"], isSpeaking := true } (by decide)⟩

/-- Claim C10: a `tts_end` that arrives with an empty TTS buffer performs
no decode or playback: the handler is exactly `resetSpeakingState`, so
speaking and processing become false, the buffer stays empty, and no
buffer source is started. -/
theorem tts_end_with_empty_buffer_resets (st : ClientState) (ok : Bool)
    (h : st.ttsAudioChunks = []) :
    handleWebSocketMessage st (ServerMsg.ttsEnd ok) = resetSpeakingState st ∧
    (handleWebSocketMessage st (ServerMsg.ttsEnd ok)).isSpeaking = false ∧
    (handleWebSocketMessage st (ServerMsg.ttsEnd ok)).isProcessing = false ∧
    (handleWebSocketMessage st (ServerMsg.ttsEnd ok)).ttsAudioChunks = [] ∧
    (handleWebSocketMessage st (ServerMsg.ttsEnd ok)).playbackActive =
      st.playbackActive := by
  simp only [handleWebSocketMessage, playTTSAudio, resetSpeakingState]
  simp [h]

theorem tts_end_with_empty_buffer_resets_witness :
    handleWebSocketMessage { initState with isSpeaking := true, isProcessing := true }
        (ServerMsg.ttsEnd true) =
      resetSpeakingState { initState with isSpeaking := true, isProcessing := true } ∧
    (handleWebSocketMessage { initState with isSpeaking := true, isProcessing := true }
        (ServerMsg.ttsEnd true)).isSpeaking = false ∧
    (handleWebSocketMessage { initState with isSpeaking := true, isProcessing := true }
        (ServerMsg.ttsEnd true)).isProcessing = false ∧
    (handleWebSocketMessage { initState with isSpeaking := true, isProcessing := true }
        (ServerMsg.ttsEnd true)).ttsAudioChunks = [] ∧
    (handleWebSocketMessage { initState with isSpeaking := true, isProcessing := true }
        (ServerMsg.ttsEnd true)).playbackActive =
      ({ initState with isSpeaking := true, isProcessing := true } :
        ClientState).playbackActive :=
  tts_end_with_empty_buffer_resets _ true rfl

end Scenery
